import Mathlib

/-!
Verification of the checkpoint package: a shallow embedding of the checkpoint
service, its provider registry and its provider interface, together with
theorems about the save / restore / list contract.

Operations are embedded as pure functions; the backend store is an explicit
state parameter, and each service operation additionally returns the ordered
list of calls it made on its collaborators (the provider and the agent
extension points), so that claims of the form "invokes X exactly once with Y"
are directly expressible.
-/

namespace Checkpoint

/-- Modelled from the spec: CheckpointState, the opaque-to-the-core state bundle
produced by the host agent (defined in the external agent package, not in
this repository): enabled tool identifiers, enabled hook identifiers, a custom
key-value state mapping, the ordered chat-message history, and an optional
last-response identifier. -/
structure CheckpointState where
  toolsEnabled : List String
  hooksEnabled : List String
  agentState : List (String × String)
  chatMessages : List String
  responseId : Option String
deriving DecidableEq

/-- Modelled from the spec: AgentCheckpointData from the external agent package:
the state snapshot together with the owning agent identifier and the creation
timestamp in milliseconds. -/
structure AgentCheckpointData where
  agentId : String
  createdAt : Nat
  state : CheckpointState
deriving DecidableEq

/-- NamedAgentCheckpoint of src/AgentCheckpointProvider.ts: AgentCheckpointData
extended with a human-readable name. -/
structure NamedAgentCheckpoint extends AgentCheckpointData where
  name : String
deriving DecidableEq

/-- StoredAgentCheckpoint of src/AgentCheckpointProvider.ts: NamedAgentCheckpoint
extended with the storage-assigned identifier. -/
structure StoredAgentCheckpoint extends NamedAgentCheckpoint where
  id : String
deriving DecidableEq

/-- AgentCheckpointListItem of src/AgentCheckpointProvider.ts: a
StoredAgentCheckpoint with the state payload omitted. -/
structure AgentCheckpointListItem where
  agentId : String
  createdAt : Nat
  name : String
  id : String
deriving DecidableEq

/-- Modelled from the spec: the error taxonomy of the core (section 7 of the
spec): no active provider selected, activation of an unregistered provider
name, restore of an unresolvable checkpoint id, and verbatim storage-backend
errors (carried as their message). -/
inductive ServiceError where
  | noActiveProvider
  | providerNotFound (name : String)
  | checkpointNotFound (id : String)
  | storage (message : String)
deriving DecidableEq

/-- Modelled from the spec: the host agent as seen through the two narrow
extension points the service requires (state capture and state replace): an
agent identifier, a clock reading used for createdAt, and the mutable
CheckpointState. -/
structure Agent where
  agentId : String
  now : Nat
  state : CheckpointState
deriving DecidableEq

/-- Modelled from the spec: the state-capture extension point of the host agent
(generateCheckpoint): returns a complete, self-contained snapshot of the
current state. -/
def Agent.generateCheckpoint (a : Agent) : AgentCheckpointData :=
  { agentId := a.agentId, createdAt := a.now, state := a.state }

/-- Modelled from the spec: the state-replace extension point of the host agent
(restoreCheckpoint): atomically sets enabled tools, enabled hooks, custom
state, message history and response pointer to exactly the given record's
state — a full replacement, not a merge. -/
def Agent.restoreCheckpoint (a : Agent) (c : StoredAgentCheckpoint) : Agent :=
  { a with state := c.state }

/-- AgentCheckpointProvider of src/AgentCheckpointProvider.ts, with the
backend's mutable storage made explicit as a state type; an arbitrary
storage-layer error is modelled as an Except String. -/
structure AgentCheckpointProvider (σ : Type) where
  storeCheckpoint : σ → NamedAgentCheckpoint → Except String (String × σ)
  retrieveCheckpoint : σ → String → Except String (Option StoredAgentCheckpoint)
  listCheckpoints : σ → Except String (List AgentCheckpointListItem)

/-- Association-list insert with last-write-wins overwrite semantics. -/
def registerEntry {α : Type} (items : List (String × α)) (name : String) (item : α) :
    List (String × α) :=
  match items with
  | [] => [(name, item)]
  | (k, v) :: rest =>
    if k = name then (name, item) :: rest else (k, v) :: registerEntry rest name item

/-- Association-list lookup, first match. -/
def lookupEntry {α : Type} (items : List (String × α)) (name : String) : Option α :=
  match items with
  | [] => none
  | (k, v) :: rest => if k = name then some v else lookupEntry rest name

/-- Modelled from the spec: KeyedRegistryWithSingleSelection from the external
utility package (not in this repository): a mapping from name to item plus at
most one enabled key. -/
structure KeyedRegistryWithSingleSelection (α : Type) where
  items : List (String × α)
  enabledItemName : Option String

namespace KeyedRegistryWithSingleSelection

variable {α : Type}

/-- Modelled from the spec: register inserts or overwrites the entry for the
name; last write wins; the item becomes selectable but not automatically
active. -/
def register (r : KeyedRegistryWithSingleSelection α) (name : String) (item : α) :
    KeyedRegistryWithSingleSelection α :=
  { r with items := registerEntry r.items name item }

/-- Modelled from the spec: the active item's registration key, or absent if
none is selected. -/
def getActiveItemName (r : KeyedRegistryWithSingleSelection α) : Option String :=
  r.enabledItemName

/-- Modelled from the spec: the active item, or a NoActiveProviderError if none
is selected. -/
def getActiveItem (r : KeyedRegistryWithSingleSelection α) : Except ServiceError α :=
  match r.enabledItemName with
  | none => .error .noActiveProvider
  | some n =>
    match lookupEntry r.items n with
    | some item => .ok item
    | none => .error .noActiveProvider

/-- Modelled from the spec: selects the name as the sole active item; fails
with a NotFoundError if the name is unregistered, leaving the selection
unchanged. -/
def setEnabledItem (r : KeyedRegistryWithSingleSelection α) (name : String) :
    Except ServiceError Unit × KeyedRegistryWithSingleSelection α :=
  match lookupEntry r.items name with
  | some _ => (.ok (), { r with enabledItemName := some name })
  | none => (.error (.providerNotFound name), r)

/-- Modelled from the spec: all registered names. -/
def getAllItemNames (r : KeyedRegistryWithSingleSelection α) : List String :=
  r.items.map Prod.fst

end KeyedRegistryWithSingleSelection

/-- Observable calls a service operation makes on its collaborators, in
execution order. -/
inductive Event where
  | agentGenerate
  | agentRestore (c : StoredAgentCheckpoint)
  | providerStore (d : NamedAgentCheckpoint)
  | providerRetrieve (id : String)
  | providerList
deriving DecidableEq

/-- Outcome of a saveAgentCheckpoint run: the result, the backend store after
the run, and the collaborator calls made. -/
structure SaveRun (σ : Type) where
  result : Except ServiceError String
  backend : σ
  events : List Event

/-- Outcome of a restoreAgentCheckpoint run: the result, the agent after the
run, and the collaborator calls made. -/
structure RestoreRun where
  result : Except ServiceError Unit
  agent : Agent
  events : List Event

namespace AgentCheckpointService

variable {σ : Type}

/-- saveAgentCheckpoint of src/AgentCheckpointService.ts: resolves the active
provider (failing first if none is selected, before the agent is consulted),
captures the agent snapshot, combines it with the name, and delegates to the
provider's storeCheckpoint, returning the backend-issued identifier. -/
def saveAgentCheckpoint (reg : KeyedRegistryWithSingleSelection (AgentCheckpointProvider σ))
    (st : σ) (name : String) (agent : Agent) : SaveRun σ :=
  match reg.getActiveItem with
  | .error e => { result := .error e, backend := st, events := [] }
  | .ok prov =>
    let data : NamedAgentCheckpoint :=
      { toAgentCheckpointData := agent.generateCheckpoint, name := name }
    match prov.storeCheckpoint st data with
    | .error e =>
      { result := .error (.storage e), backend := st,
        events := [.agentGenerate, .providerStore data] }
    | .ok (id, st2) =>
      { result := .ok id, backend := st2,
        events := [.agentGenerate, .providerStore data] }

/-- restoreAgentCheckpoint of src/AgentCheckpointService.ts: resolves the
active provider, delegates to retrieveCheckpoint, fails with the
checkpoint-not-found condition on an absent record, and otherwise hands the
retrieved record to the agent's state-replace extension point. -/
def restoreAgentCheckpoint (reg : KeyedRegistryWithSingleSelection (AgentCheckpointProvider σ))
    (st : σ) (id : String) (agent : Agent) : RestoreRun :=
  match reg.getActiveItem with
  | .error e => { result := .error e, agent := agent, events := [] }
  | .ok prov =>
    match prov.retrieveCheckpoint st id with
    | .error e =>
      { result := .error (.storage e), agent := agent, events := [.providerRetrieve id] }
    | .ok none =>
      { result := .error (.checkpointNotFound id), agent := agent,
        events := [.providerRetrieve id] }
    | .ok (some c) =>
      { result := .ok (), agent := agent.restoreCheckpoint c,
        events := [.providerRetrieve id, .agentRestore c] }

/-- listCheckpoints of src/AgentCheckpointService.ts: resolves the active
provider and delegates to its listCheckpoints. -/
def listCheckpoints (reg : KeyedRegistryWithSingleSelection (AgentCheckpointProvider σ))
    (st : σ) : Except ServiceError (List AgentCheckpointListItem) × List Event :=
  match reg.getActiveItem with
  | .error e => (.error e, [])
  | .ok prov =>
    match prov.listCheckpoints st with
    | .error e => (.error (.storage e), [.providerList])
    | .ok items => (.ok items, [.providerList])

end AgentCheckpointService

/-- afterAgentInputComplete of src/hooks/autoCheckpoint.ts: a silent no-op when
no AgentCheckpointService is registered on the agent; otherwise saves a
checkpoint named after the input message. The second component records the
checkpoint names passed to saveAgentCheckpoint, in order. -/
def afterAgentInputComplete {σ : Type}
    (storage : Option (KeyedRegistryWithSingleSelection (AgentCheckpointProvider σ) × σ))
    (agent : Agent) (message : String) : Except ServiceError Unit × List String :=
  match storage with
  | none => (.ok (), [])
  | some (reg, st) =>
    match (AgentCheckpointService.saveAgentCheckpoint reg st message agent).result with
    | .error e => (.error e, [message])
    | .ok _ => (.ok (), [message])

/-- Storage contract of the spec: the identifier returned by storeCheckpoint
resolves via retrieveCheckpoint to exactly the stored record, carrying that
identifier. -/
def RetrievesStored {σ : Type} (prov : AgentCheckpointProvider σ) : Prop :=
  ∀ st d id st2, prov.storeCheckpoint st d = .ok (id, st2) →
    ∃ sc, prov.retrieveCheckpoint st2 id = .ok (some sc) ∧
      sc.toNamedAgentCheckpoint = d ∧ sc.id = id

/-- Lookup in a list of stored checkpoints by identifier, first match. -/
def memFind (l : List StoredAgentCheckpoint) (id : String) : Option StoredAgentCheckpoint :=
  match l with
  | [] => none
  | c :: rest => if c.id = id then some c else memFind rest id

/-- Reference in-memory provider in the style of the package documentation:
the backend state is the list of stored checkpoints (newest first) and fresh
identifiers are decimal counters. -/
def memProvider : AgentCheckpointProvider (List StoredAgentCheckpoint) where
  storeCheckpoint := fun st d =>
    .ok (toString st.length, { toNamedAgentCheckpoint := d, id := toString st.length } :: st)
  retrieveCheckpoint := fun st id => .ok (memFind st id)
  listCheckpoints := fun st => .ok (st.map fun c =>
    { agentId := c.agentId, createdAt := c.createdAt, name := c.name, id := c.id })

/-- Provider whose every operation raises a storage-layer error, for
exercising the propagation contract. -/
def failProvider : AgentCheckpointProvider Unit where
  storeCheckpoint := fun _ _ => .error "disk full"
  retrieveCheckpoint := fun _ _ => .error "disk full"
  listCheckpoints := fun _ => .error "disk full"

/-- Registry with no entries and no selection, the state at service
construction. -/
def emptyRegistry (α : Type) : KeyedRegistryWithSingleSelection α :=
  { items := [], enabledItemName := none }

/-- Concrete sample state for witnesses. -/
def sampleState : CheckpointState :=
  { toolsEnabled := ["toolA", "toolB"], hooksEnabled := ["autoCheckpoint"],
    agentState := [("k", "v")], chatMessages := ["hello"], responseId := some "r1" }

/-- Concrete sample agent for witnesses. -/
def sampleAgent : Agent := { agentId := "agent-1", now := 1000, state := sampleState }

/-- Agent whose capture extension point returns exactly the given state. -/
def agentWithState (s : CheckpointState) : Agent :=
  { agentId := "agent-1", now := 1000, state := s }

/-- Registry with the in-memory provider registered and active. -/
def regMem : KeyedRegistryWithSingleSelection (AgentCheckpointProvider (List StoredAgentCheckpoint)) :=
  (((emptyRegistry _).register "memory" memProvider).setEnabledItem "memory").2

/-- Registry with the failing provider registered and active. -/
def regFail : KeyedRegistryWithSingleSelection (AgentCheckpointProvider Unit) :=
  (((emptyRegistry _).register "failing" failProvider).setEnabledItem "failing").2

/-- Registry with the in-memory provider registered but nothing selected. -/
def regNoActive : KeyedRegistryWithSingleSelection (AgentCheckpointProvider (List StoredAgentCheckpoint)) :=
  (emptyRegistry _).register "memory" memProvider

/-- Concrete stored checkpoint matching the sample agent, for witnesses. -/
def sampleStored : StoredAgentCheckpoint :=
  { agentId := "agent-1", createdAt := 1000, state := sampleState, name := "n1", id := "0" }

/-- The in-memory provider satisfies the storage contract: a freshly stored
record is retrieved unchanged under its new identifier. -/
theorem memProvider_retrievesStored : RetrievesStored memProvider := by
  intro st d id st2 h
  simp only [memProvider, Except.ok.injEq, Prod.mk.injEq] at h
  obtain ⟨hid, hst⟩ := h
  subst hid
  subst hst
  exact ⟨{ toNamedAgentCheckpoint := d, id := toString st.length }, by simp [memProvider, memFind],
    rfl, rfl⟩

/-- C1: when the active provider resolves the id to an absent record,
restoreAgentCheckpoint fails with the checkpoint-not-found condition, which is
distinguishable by construction from every other failure condition of the
taxonomy. -/
theorem restore_absent_fails_not_found (σ : Type)
    (reg : KeyedRegistryWithSingleSelection (AgentCheckpointProvider σ))
    (prov : AgentCheckpointProvider σ) (st : σ) (id : String) (agent : Agent)
    (hactive : reg.getActiveItem = .ok prov)
    (habsent : prov.retrieveCheckpoint st id = .ok none) :
    (AgentCheckpointService.restoreAgentCheckpoint reg st id agent).result
        = .error (.checkpointNotFound id) ∧
      ServiceError.checkpointNotFound id ≠ .noActiveProvider ∧
      (∀ n, ServiceError.checkpointNotFound id ≠ .providerNotFound n) ∧
      (∀ e, ServiceError.checkpointNotFound id ≠ .storage e) := by
  refine ⟨?_, by simp, by simp, by simp⟩
  simp [AgentCheckpointService.restoreAgentCheckpoint, hactive, habsent]

/-- Witness for C1 at a concrete registry, backend and id. -/
theorem restore_absent_fails_not_found_witness :
    (AgentCheckpointService.restoreAgentCheckpoint regMem [] "zzz" sampleAgent).result
        = .error (.checkpointNotFound "zzz") ∧
      ServiceError.checkpointNotFound "zzz" ≠ .noActiveProvider ∧
      (∀ n, ServiceError.checkpointNotFound "zzz" ≠ .providerNotFound n) ∧
      (∀ e, ServiceError.checkpointNotFound "zzz" ≠ .storage e) :=
  restore_absent_fails_not_found (List StoredAgentCheckpoint) regMem memProvider [] "zzz"
    sampleAgent rfl rfl

/-- C2: on an absent record the restore fails, the agent is returned
unchanged, and the state-replace extension point is never invoked — the only
collaborator call is the single provider retrieval. -/
theorem restore_absent_leaves_agent_unchanged (σ : Type)
    (reg : KeyedRegistryWithSingleSelection (AgentCheckpointProvider σ))
    (prov : AgentCheckpointProvider σ) (st : σ) (id : String) (agent : Agent)
    (hactive : reg.getActiveItem = .ok prov)
    (habsent : prov.retrieveCheckpoint st id = .ok none) :
    (AgentCheckpointService.restoreAgentCheckpoint reg st id agent).result
        = .error (.checkpointNotFound id) ∧
      (AgentCheckpointService.restoreAgentCheckpoint reg st id agent).agent = agent ∧
      (AgentCheckpointService.restoreAgentCheckpoint reg st id agent).events
        = [.providerRetrieve id] ∧
      ∀ c, Event.agentRestore c ∉
        (AgentCheckpointService.restoreAgentCheckpoint reg st id agent).events := by
  simp [AgentCheckpointService.restoreAgentCheckpoint, hactive, habsent]

/-- Witness for C2 at a concrete registry, backend and id. -/
theorem restore_absent_leaves_agent_unchanged_witness :
    (AgentCheckpointService.restoreAgentCheckpoint regMem [] "missing" sampleAgent).result
        = .error (.checkpointNotFound "missing") ∧
      (AgentCheckpointService.restoreAgentCheckpoint regMem [] "missing" sampleAgent).agent
        = sampleAgent ∧
      (AgentCheckpointService.restoreAgentCheckpoint regMem [] "missing" sampleAgent).events
        = [.providerRetrieve "missing"] ∧
      ∀ c, Event.agentRestore c ∉
        (AgentCheckpointService.restoreAgentCheckpoint regMem [] "missing" sampleAgent).events :=
  restore_absent_leaves_agent_unchanged (List StoredAgentCheckpoint) regMem memProvider []
    "missing" sampleAgent rfl rfl

/-- C3: when the active provider resolves the id to a record, the restore
succeeds, the state-replace extension point is invoked exactly once with that
record unmodified, and the agent's state is fully replaced by the record's
state (no merge: every state component comes from the record, all other agent
fields untouched). -/
theorem restore_found_replaces_state (σ : Type)
    (reg : KeyedRegistryWithSingleSelection (AgentCheckpointProvider σ))
    (prov : AgentCheckpointProvider σ) (st : σ) (id : String) (agent : Agent)
    (c : StoredAgentCheckpoint)
    (hactive : reg.getActiveItem = .ok prov)
    (hfound : prov.retrieveCheckpoint st id = .ok (some c)) :
    (AgentCheckpointService.restoreAgentCheckpoint reg st id agent).result = .ok () ∧
      (AgentCheckpointService.restoreAgentCheckpoint reg st id agent).events
        = [.providerRetrieve id, .agentRestore c] ∧
      (AgentCheckpointService.restoreAgentCheckpoint reg st id agent).agent
        = { agent with state := c.state } := by
  simp [AgentCheckpointService.restoreAgentCheckpoint, hactive, hfound, Agent.restoreCheckpoint]

/-- Witness for C3 at a concrete registry holding one stored checkpoint. -/
theorem restore_found_replaces_state_witness :
    (AgentCheckpointService.restoreAgentCheckpoint regMem [sampleStored] "0" sampleAgent).result
        = .ok () ∧
      (AgentCheckpointService.restoreAgentCheckpoint regMem [sampleStored] "0" sampleAgent).events
        = [.providerRetrieve "0", .agentRestore sampleStored] ∧
      (AgentCheckpointService.restoreAgentCheckpoint regMem [sampleStored] "0" sampleAgent).agent
        = { sampleAgent with state := sampleStored.state } :=
  restore_found_replaces_state (List StoredAgentCheckpoint) regMem memProvider [sampleStored]
    "0" sampleAgent sampleStored rfl rfl

/-- C4: saveAgentCheckpoint hands the provider exactly the record formed from
the agent's captured snapshot combined with the name (all snapshot fields
unchanged), captures the snapshot exactly once, and returns the identifier the
provider issued, unmodified. -/
theorem save_passes_snapshot (σ : Type)
    (reg : KeyedRegistryWithSingleSelection (AgentCheckpointProvider σ))
    (prov : AgentCheckpointProvider σ) (st : σ) (n : String) (agent : Agent)
    (id : String) (st2 : σ)
    (hactive : reg.getActiveItem = .ok prov)
    (hstore : prov.storeCheckpoint st
        { toAgentCheckpointData := agent.generateCheckpoint, name := n } = .ok (id, st2)) :
    (AgentCheckpointService.saveAgentCheckpoint reg st n agent).result = .ok id ∧
      (AgentCheckpointService.saveAgentCheckpoint reg st n agent).events
        = [.agentGenerate,
           .providerStore { toAgentCheckpointData := agent.generateCheckpoint, name := n }] ∧
      (AgentCheckpointService.saveAgentCheckpoint reg st n agent).backend = st2 := by
  simp [AgentCheckpointService.saveAgentCheckpoint, hactive, hstore]

/-- Witness for C4 at a concrete registry and empty backend. -/
theorem save_passes_snapshot_witness :
    (AgentCheckpointService.saveAgentCheckpoint regMem [] "n1" sampleAgent).result = .ok "0" ∧
      (AgentCheckpointService.saveAgentCheckpoint regMem [] "n1" sampleAgent).events
        = [.agentGenerate,
           .providerStore { toAgentCheckpointData := sampleAgent.generateCheckpoint,
                            name := "n1" }] ∧
      (AgentCheckpointService.saveAgentCheckpoint regMem [] "n1" sampleAgent).backend
        = [sampleStored] :=
  save_passes_snapshot (List StoredAgentCheckpoint) regMem memProvider [] "n1" sampleAgent
    "0" [sampleStored] rfl rfl

/-- C5: with no provider selected, save, restore and list all fail with the
no-active-provider condition and make no collaborator call at all — no
provider operation and no agent extension point. -/
theorem no_active_provider_all_fail (σ : Type)
    (reg : KeyedRegistryWithSingleSelection (AgentCheckpointProvider σ))
    (st : σ) (n : String) (id : String) (agent : Agent)
    (hnone : reg.enabledItemName = none) :
    (AgentCheckpointService.saveAgentCheckpoint reg st n agent).result
        = .error .noActiveProvider ∧
      (AgentCheckpointService.saveAgentCheckpoint reg st n agent).events = [] ∧
      (AgentCheckpointService.restoreAgentCheckpoint reg st id agent).result
        = .error .noActiveProvider ∧
      (AgentCheckpointService.restoreAgentCheckpoint reg st id agent).events = [] ∧
      (AgentCheckpointService.restoreAgentCheckpoint reg st id agent).agent = agent ∧
      (AgentCheckpointService.listCheckpoints reg st).1 = .error .noActiveProvider ∧
      (AgentCheckpointService.listCheckpoints reg st).2 = [] := by
  have h : reg.getActiveItem = .error .noActiveProvider := by
    simp [KeyedRegistryWithSingleSelection.getActiveItem, hnone]
  simp [AgentCheckpointService.saveAgentCheckpoint,
    AgentCheckpointService.restoreAgentCheckpoint, AgentCheckpointService.listCheckpoints, h]

/-- Witness for C5 at a registry with a registered but unselected provider. -/
theorem no_active_provider_all_fail_witness :
    (AgentCheckpointService.saveAgentCheckpoint regNoActive [] "n1" sampleAgent).result
        = .error .noActiveProvider ∧
      (AgentCheckpointService.saveAgentCheckpoint regNoActive [] "n1" sampleAgent).events = [] ∧
      (AgentCheckpointService.restoreAgentCheckpoint regNoActive [] "0" sampleAgent).result
        = .error .noActiveProvider ∧
      (AgentCheckpointService.restoreAgentCheckpoint regNoActive [] "0" sampleAgent).events
        = [] ∧
      (AgentCheckpointService.restoreAgentCheckpoint regNoActive [] "0" sampleAgent).agent
        = sampleAgent ∧
      (AgentCheckpointService.listCheckpoints regNoActive []).1 = .error .noActiveProvider ∧
      (AgentCheckpointService.listCheckpoints regNoActive []).2 = [] :=
  no_active_provider_all_fail (List StoredAgentCheckpoint) regNoActive [] "n1" "0"
    sampleAgent rfl

/-- C6: round-trip — under a provider satisfying the storage contract,
retrieving the identifier returned by saving an agent whose state is s under
name n yields a record whose state fields equal s exactly and whose name
equals n. -/
theorem round_trip (σ : Type)
    (reg : KeyedRegistryWithSingleSelection (AgentCheckpointProvider σ))
    (prov : AgentCheckpointProvider σ) (st : σ) (s : CheckpointState) (n : String)
    (id : String)
    (hcontract : RetrievesStored prov)
    (hactive : reg.getActiveItem = .ok prov)
    (hres : (AgentCheckpointService.saveAgentCheckpoint reg st n (agentWithState s)).result
        = .ok id) :
    ∃ sc, prov.retrieveCheckpoint
        (AgentCheckpointService.saveAgentCheckpoint reg st n (agentWithState s)).backend id
          = .ok (some sc) ∧
      sc.state = s ∧ sc.name = n := by
  cases hstore : prov.storeCheckpoint st
      { toAgentCheckpointData := (agentWithState s).generateCheckpoint, name := n } with
  | error e =>
    exfalso
    simp [AgentCheckpointService.saveAgentCheckpoint, hactive, hstore] at hres
  | ok p =>
    obtain ⟨id2, st2⟩ := p
    simp only [AgentCheckpointService.saveAgentCheckpoint, hactive, hstore] at hres ⊢
    simp only [Except.ok.injEq] at hres
    subst hres
    obtain ⟨sc, hret, hsc, hid⟩ := hcontract st _ id2 st2 hstore
    obtain ⟨named, scid⟩ := sc
    have hnamed : named
        = { toAgentCheckpointData := (agentWithState s).generateCheckpoint, name := n } := hsc
    subst hnamed
    exact ⟨_, hret, rfl, rfl⟩

/-- Witness for C6 with the in-memory provider on an empty backend. -/
theorem round_trip_witness :
    ∃ sc, memProvider.retrieveCheckpoint
        (AgentCheckpointService.saveAgentCheckpoint regMem [] "n1"
          (agentWithState sampleState)).backend "0"
          = .ok (some sc) ∧
      sc.state = sampleState ∧ sc.name = "n1" :=
  round_trip (List StoredAgentCheckpoint) regMem memProvider [] sampleState "n1" "0"
    memProvider_retrievesStored rfl rfl

/-- C7: single selection — after a successful activation of A followed by a
successful activation of B, the active name is B (and not A when they differ),
and at most one name is ever active. -/
theorem single_selection (α : Type) (r r1 r2 : KeyedRegistryWithSingleSelection α)
    (A B : String)
    (_h1 : r.setEnabledItem A = (.ok (), r1))
    (h2 : r1.setEnabledItem B = (.ok (), r2)) :
    r2.getActiveItemName = some B ∧
      (A ≠ B → r2.getActiveItemName ≠ some A) ∧
      ∀ n m, r2.getActiveItemName = some n → r2.getActiveItemName = some m → n = m := by
  unfold KeyedRegistryWithSingleSelection.setEnabledItem at h2
  cases hl : lookupEntry r1.items B with
  | none =>
    rw [hl] at h2
    simp at h2
  | some item =>
    rw [hl] at h2
    simp only [Prod.mk.injEq, true_and] at h2
    subst h2
    refine ⟨rfl, ?_, ?_⟩
    · intro hne hc
      exact hne (Option.some.inj hc).symm
    · intro n m hn hm
      exact Option.some.inj (hn.symm.trans hm)

/-- Witness for C7 on a concrete two-entry registry. -/
theorem single_selection_witness :
    ({ items := [("a", 0), ("b", 1)], enabledItemName := some "b" }
        : KeyedRegistryWithSingleSelection Nat).getActiveItemName = some "b" ∧
      ("a" ≠ "b" →
        ({ items := [("a", 0), ("b", 1)], enabledItemName := some "b" }
          : KeyedRegistryWithSingleSelection Nat).getActiveItemName ≠ some "a") ∧
      ∀ n m,
        ({ items := [("a", 0), ("b", 1)], enabledItemName := some "b" }
          : KeyedRegistryWithSingleSelection Nat).getActiveItemName = some n →
        ({ items := [("a", 0), ("b", 1)], enabledItemName := some "b" }
          : KeyedRegistryWithSingleSelection Nat).getActiveItemName = some m → n = m :=
  single_selection Nat
    { items := [("a", 0), ("b", 1)], enabledItemName := none }
    { items := [("a", 0), ("b", 1)], enabledItemName := some "a" }
    { items := [("a", 0), ("b", 1)], enabledItemName := some "b" }
    "a" "b" rfl rfl

/-- C8: activating an unregistered name fails with the provider-not-found
condition and returns the registry unchanged, selection included — it never
silently activates nothing. -/
theorem set_unregistered_fails (α : Type) (r : KeyedRegistryWithSingleSelection α)
    (n : String)
    (h : lookupEntry r.items n = none) :
    r.setEnabledItem n = (.error (.providerNotFound n), r) := by
  unfold KeyedRegistryWithSingleSelection.setEnabledItem
  rw [h]

/-- Witness for C8 on a concrete registry without the requested name. -/
theorem set_unregistered_fails_witness :
    ({ items := [("a", 0), ("b", 1)], enabledItemName := some "a" }
        : KeyedRegistryWithSingleSelection Nat).setEnabledItem "zzz"
      = (.error (.providerNotFound "zzz"),
         { items := [("a", 0), ("b", 1)], enabledItemName := some "a" }) :=
  set_unregistered_fails Nat
    { items := [("a", 0), ("b", 1)], enabledItemName := some "a" } "zzz" rfl

/-- C9: every storage-layer error of the active provider is propagated by the
corresponding service operation carrying the backend's error verbatim, with
exactly one provider attempt and no other effect. -/
theorem storage_errors_propagate (σ : Type)
    (reg : KeyedRegistryWithSingleSelection (AgentCheckpointProvider σ))
    (prov : AgentCheckpointProvider σ) (st : σ)
    (hactive : reg.getActiveItem = .ok prov) :
    (∀ n agent e, prov.storeCheckpoint st
          { toAgentCheckpointData := agent.generateCheckpoint, name := n } = .error e →
        (AgentCheckpointService.saveAgentCheckpoint reg st n agent).result
            = .error (.storage e) ∧
          (AgentCheckpointService.saveAgentCheckpoint reg st n agent).events
            = [.agentGenerate,
               .providerStore { toAgentCheckpointData := agent.generateCheckpoint,
                                name := n }]) ∧
      (∀ id agent e, prov.retrieveCheckpoint st id = .error e →
        (AgentCheckpointService.restoreAgentCheckpoint reg st id agent).result
            = .error (.storage e) ∧
          (AgentCheckpointService.restoreAgentCheckpoint reg st id agent).events
            = [.providerRetrieve id] ∧
          (AgentCheckpointService.restoreAgentCheckpoint reg st id agent).agent = agent) ∧
      ∀ e, prov.listCheckpoints st = .error e →
        (AgentCheckpointService.listCheckpoints reg st).1 = .error (.storage e) ∧
          (AgentCheckpointService.listCheckpoints reg st).2 = [.providerList] := by
  refine ⟨?_, ?_, ?_⟩
  · intro n agent e he
    simp [AgentCheckpointService.saveAgentCheckpoint, hactive, he]
  · intro id agent e he
    simp [AgentCheckpointService.restoreAgentCheckpoint, hactive, he]
  · intro e he
    simp [AgentCheckpointService.listCheckpoints, hactive, he]

/-- Witness for C9 on a provider whose every operation fails. -/
theorem storage_errors_propagate_witness :
    (AgentCheckpointService.saveAgentCheckpoint regFail () "n1" sampleAgent).result
        = .error (.storage "disk full") ∧
      (AgentCheckpointService.restoreAgentCheckpoint regFail () "0" sampleAgent).result
        = .error (.storage "disk full") ∧
      (AgentCheckpointService.listCheckpoints regFail ()).1
        = .error (.storage "disk full") :=
  ⟨((storage_errors_propagate Unit regFail failProvider () rfl).1 "n1" sampleAgent
      "disk full" rfl).1,
   ((storage_errors_propagate Unit regFail failProvider () rfl).2.1 "0" sampleAgent
      "disk full" rfl).1,
   ((storage_errors_propagate Unit regFail failProvider () rfl).2.2
      "disk full" rfl).1⟩

/-- C10: the autoCheckpoint hook is a silent successful no-op when the agent
has no checkpoint service, and with a service present it invokes
saveAgentCheckpoint exactly once, with the input message as the checkpoint
name. -/
theorem autoCheckpoint_hook (σ : Type) (agent : Agent) (message : String) :
    afterAgentInputComplete (σ := σ) none agent message = (.ok (), []) ∧
      ∀ (reg : KeyedRegistryWithSingleSelection (AgentCheckpointProvider σ)) (st : σ),
        (afterAgentInputComplete (some (reg, st)) agent message).2 = [message] := by
  refine ⟨rfl, ?_⟩
  intro reg st
  show (match (AgentCheckpointService.saveAgentCheckpoint reg st message agent).result with
    | Except.error e => ((Except.error e : Except ServiceError Unit), [message])
    | Except.ok _ => (Except.ok (), [message])).2 = [message]
  cases (AgentCheckpointService.saveAgentCheckpoint reg st message agent).result <;> rfl

end Checkpoint
